import Mathlib

/-!
Verification of the per-URL classification pipeline of
`StreamlitPRThemeClassifier.py`.

The script's effectful dependencies are modelled explicitly:

* the HTTP layer (`requests.get` + BeautifulSoup) is abstracted as a
  function `http : String → HttpResult`; a successful response carries its
  status code and the list of text contents of the `<p>` elements of the
  parsed body (the `p.get_text()` values), since that list is all the
  script reads from the response body;
* the zero-shot model (`classifier`) is a function
  `model : String → List String → List String` returning the ranked list
  `result["labels"]`; Python's `result["labels"][0]` presumes this list is
  non-empty, which the transformers pipeline guarantees, so theorems about
  the returned label hypothesise a non-empty ranking;
* `st.warning` / `st.error` messages, HTTP fetches and model invocations
  are collected in a `Trace`, so that "no network call is made" and
  "the model is not invoked" are statable.

Python truthiness of a possibly-`None` string (`if not text`, line 54, and
`if article_text`, line 41) is rendered by explicit case analysis on
`Option String` together with `String.isEmpty`.
-/

namespace PRThemeClassifier

/-- A message surfaced to the user via `st.warning` or `st.error`. -/
inductive LogMsg where
  | warning (msg : String)
  | error (msg : String)
deriving DecidableEq

/-- Outcome of `requests.get` on a URL: a response (status code plus the
`get_text()` contents of the `<p>` elements of the parsed body), or one of
the two exception kinds the script catches (`SSLError`, or any other
`RequestException` carrying its message). -/
inductive HttpResult where
  | ok (status : Nat) (paragraphs : List String)
  | sslError
  | reqError (msg : String)
deriving DecidableEq

/-- Observable effects of a pipeline fragment: URLs fetched, model
invocations `(text, candidate_labels)`, and surfaced messages. -/
structure Trace where
  fetches : List String
  modelCalls : List (String × List String)
  logs : List LogMsg
deriving DecidableEq

/-- The empty trace: no fetch, no model call, no message. -/
def Trace.empty : Trace := ⟨[], [], []⟩

/-- Effects of one fragment followed by another. -/
def Trace.append (a b : Trace) : Trace :=
  ⟨a.fetches ++ b.fetches, a.modelCalls ++ b.modelCalls, a.logs ++ b.logs⟩

/-- The external world: the HTTP layer and the loaded zero-shot model. -/
structure Env where
  http : String → HttpResult
  model : String → List String → List String

/-- Python's `str.strip()`: the string with whitespace removed from both
ends.  (Stated over the character list so that it evaluates by kernel
reduction.) -/
def pyStrip (s : String) : String :=
  String.mk
    (((s.data.dropWhile Char.isWhitespace).reverse.dropWhile
        Char.isWhitespace).reverse)

/-- Python's `str.upper()` as the script uses it (ASCII column names):
uppercases each character.  (Stated over the character list so that it
evaluates by kernel reduction.) -/
def pyUpper (s : String) : String :=
  String.mk (s.data.map Char.toUpper)

/-- `extract_text(url)`, lines 26-48.  Issues one GET; on a non-200 status
warns and returns `None`; on 200 joins the paragraph texts with single
spaces and returns the stripped join when the join is non-empty (`return
article_text.strip() if article_text else None`), `None` otherwise; on an
`SSLError` or other `RequestException` surfaces an error and returns
`None`. -/
def extract_text (env : Env) (url : String) : Option String × Trace :=
  match env.http url with
  | .ok status paragraphs =>
      if status ≠ 200 then
        (none, ⟨[url], [],
          [.warning ("Skipping " ++ url ++ ": HTTP " ++ toString status)]⟩)
      else
        let article_text := String.intercalate " " paragraphs
        ((if article_text.isEmpty then none else some (pyStrip article_text)),
         ⟨[url], [], []⟩)
  | .sslError =>
      (none, ⟨[url], [], [.error ("SSL Error: Skipping " ++ url)]⟩)
  | .reqError e =>
      (none, ⟨[url], [], [.error ("Request Error: " ++ e)]⟩)

/-- `classify_text(text, categories)`, lines 53-58.  `if not text` is true
for both `None` and the empty string; otherwise the model is invoked on
`text[:1000]` with the full category list as candidate labels and the
top-ranked label `result["labels"][0]` is returned. -/
def classify_text (env : Env) (text : Option String) (categories : List String) :
    String × Trace :=
  match text with
  | none => ("Uncategorized", Trace.empty)
  | some s =>
      if s.isEmpty then ("Uncategorized", Trace.empty)
      else
        let ranked := env.model (s.take 1000) categories
        (ranked.headD "", ⟨[], [(s.take 1000, categories)], []⟩)

/-- The per-row lambda of line 107-108:
`classify_text(extract_text(url), categories) if pd.notna(url) else
"Uncategorized"`.  A missing (`NaN`) URL cell is `none`. -/
def processRow (env : Env) (categories : List String) (url : Option String) :
    String × Trace :=
  match url with
  | none => ("Uncategorized", Trace.empty)
  | some u =>
      let e := extract_text env u
      let c := classify_text env e.1 categories
      (c.1, e.2.append c.2)

/-- `df["URL"].apply(...)`, line 107: the Category column produced from the
URL column, one output per input row, in input order. -/
def classifyArticles (env : Env) (categories : List String)
    (urls : List (Option String)) : List String :=
  urls.map (fun u => (processRow env categories u).1)

/-- Header normalization of line 84:
`df.columns = df.columns.str.strip().str.upper()`. -/
def normalizeColumns (cols : List String) : List String :=
  cols.map (fun c => pyUpper (pyStrip c))

/-- The required-column check of line 87: `"URL" not in df.columns`
(after normalization), here stated positively. -/
def hasURLColumn (cols : List String) : Bool :=
  (normalizeColumns cols).contains "URL"

/-- The assumption on the external model used by the invariant claims:
on the given category set it only returns candidate labels. -/
def ModelSound (env : Env) (categories : List String) : Prop :=
  ∀ t x, x ∈ env.model t categories → x ∈ categories

/-- The assumption that the model ranks at least one label on the given
category set (the transformers pipeline returns every candidate, ranked;
`result["labels"][0]` would raise otherwise). -/
def ModelRanks (env : Env) (categories : List String) : Prop :=
  ∀ t, env.model t categories ≠ []

end PRThemeClassifier

namespace PRThemeClassifier

/-- A world where every fetch succeeds with two paragraphs of text; the
model ranks the candidate labels in the order given. -/
def helloEnv : Env :=
  ⟨fun _ => .ok 200 ["Hello", "world"], fun _ labels => labels⟩

/-- A world where every fetch returns HTTP 404. -/
def notFoundEnv : Env :=
  ⟨fun _ => .ok 404 [], fun _ labels => labels⟩

/-- A world where every fetch raises an SSL error. -/
def sslEnv : Env :=
  ⟨fun _ => .sslError, fun _ labels => labels⟩

/-- A world where every fetch raises a generic request error. -/
def reqErrEnv : Env :=
  ⟨fun _ => .reqError "boom", fun _ labels => labels⟩

/-- A world where every fetch succeeds but the page's only paragraph text
is whitespace. -/
def whitespaceEnv : Env :=
  ⟨fun _ => .ok 200 ["  "], fun _ labels => labels⟩

/-- A world with no network; the model ranks the candidate labels in the
order given. -/
def constLabelsEnv : Env :=
  ⟨fun _ => .reqError "offline", fun _ labels => labels⟩

/-- C2: a row whose URL cell is null/missing is assigned "Uncategorized"
directly, with no fetch, no model invocation and no message: neither the
extractor nor the classifier runs. -/
theorem processRow_missing_url (env : Env) (categories : List String) :
    processRow env categories none =
      ("Uncategorized", (⟨[], [], []⟩ : Trace)) := rfl

/-- C4: on absent text `classify_text` returns "Uncategorized" at once,
with an empty trace: the zero-shot model is not invoked. -/
theorem classify_text_absent (env : Env) (categories : List String) :
    classify_text env none categories =
      ("Uncategorized", (⟨[], [], []⟩ : Trace)) := rfl

/-- C5: on a fetch that returns HTTP 200, `extract_text` joins the text of
every paragraph element with single-space separators; when the join is
non-empty it returns the join with surrounding whitespace trimmed, and
when the join is empty it returns absent.  Exactly one fetch happens and
no message is surfaced. -/
theorem extract_text_success (env : Env) (url : String)
    (paragraphs : List String) (h : env.http url = .ok 200 paragraphs) :
    ((String.intercalate " " paragraphs).isEmpty = false →
      (extract_text env url).1 =
        some (pyStrip (String.intercalate " " paragraphs))) ∧
    ((String.intercalate " " paragraphs).isEmpty = true →
      (extract_text env url).1 = none) ∧
    (extract_text env url).2 = (⟨[url], [], []⟩ : Trace) := by
  have e : extract_text env url =
      ((if (String.intercalate " " paragraphs).isEmpty then none
        else some (pyStrip (String.intercalate " " paragraphs))),
       (⟨[url], [], []⟩ : Trace)) := by
    unfold extract_text
    rw [h]
    rfl
  rw [e]
  by_cases hi : (String.intercalate " " paragraphs).isEmpty
  · simp [hi]
  · simp [hi]

/-- C5 witness: a concrete successful fetch with paragraphs "Hello" and
"world" extracts "Hello world". -/
theorem extract_text_success_witness :
    helloEnv.http "https://good.example" = .ok 200 ["Hello", "world"] ∧
    (extract_text helloEnv "https://good.example").1 = some "Hello world" := by
  refine ⟨rfl, ?_⟩
  have h := (extract_text_success helloEnv "https://good.example"
    ["Hello", "world"] rfl).1 (by decide)
  rw [h]
  decide

/-- C6: on a fetch that returns a non-success (non-200) status,
`extract_text` returns absent and surfaces exactly one warning naming the
URL and the status; the failure is not fatal: the whole row still
completes, with "Uncategorized" assigned. -/
theorem extract_text_http_failure (env : Env) (url : String) (status : Nat)
    (paragraphs categories : List String)
    (h : env.http url = .ok status paragraphs) (hs : status ≠ 200) :
    (extract_text env url).1 = none ∧
    (extract_text env url).2.logs =
      [LogMsg.warning ("Skipping " ++ url ++ ": HTTP " ++ toString status)] ∧
    (processRow env categories (some url)).1 = "Uncategorized" := by
  have e : extract_text env url =
      (none, (⟨[url], [],
        [LogMsg.warning ("Skipping " ++ url ++ ": HTTP " ++ toString status)]⟩ :
        Trace)) := by
    unfold extract_text
    rw [h]
    simp [hs]
  refine ⟨by rw [e], by rw [e], ?_⟩
  have h1 : (extract_text env url).1 = none := by rw [e]
  simp [processRow, h1, classify_text]

/-- C6 witness: a concrete HTTP 404 fetch yields absent text, the warning
"Skipping ...: HTTP 404", and the row category "Uncategorized". -/
theorem extract_text_http_failure_witness :
    notFoundEnv.http "https://bad.example" = .ok 404 [] ∧
    (extract_text notFoundEnv "https://bad.example").1 = none ∧
    (processRow notFoundEnv ["Tech"] (some "https://bad.example")).1 =
      "Uncategorized" := by
  have h := extract_text_http_failure notFoundEnv "https://bad.example" 404
    [] ["Tech"] rfl (by decide)
  exact ⟨rfl, h.1, h.2.2⟩

/-- C7: a fetch raising a secure-transport (SSL) failure and a fetch
raising any other request failure both make `extract_text` return absent
after exactly one fetch attempt (no retry); the two cases differ only in
the surfaced error message. -/
theorem extract_text_exception (env1 env2 : Env) (url msg : String)
    (h1 : env1.http url = .sslError) (h2 : env2.http url = .reqError msg) :
    extract_text env1 url =
      (none, (⟨[url], [],
        [LogMsg.error ("SSL Error: Skipping " ++ url)]⟩ : Trace)) ∧
    extract_text env2 url =
      (none, (⟨[url], [],
        [LogMsg.error ("Request Error: " ++ msg)]⟩ : Trace)) := by
  constructor
  · unfold extract_text
    rw [h1]
  · unfold extract_text
    rw [h2]

/-- C7 witness: concrete SSL and generic request failures both resolve to
absent extraction. -/
theorem extract_text_exception_witness :
    sslEnv.http "https://a.example" = .sslError ∧
    reqErrEnv.http "https://a.example" = .reqError "boom" ∧
    (extract_text sslEnv "https://a.example").1 = none ∧
    (extract_text reqErrEnv "https://a.example").1 = none := by
  have h := extract_text_exception sslEnv reqErrEnv "https://a.example"
    "boom" rfl rfl
  exact ⟨rfl, rfl, by rw [h.1], by rw [h.2]⟩

/-- C9: given the model, `classify_text` is a deterministic function of
its arguments: two worlds with the same model classify every (text,
categories) pair identically, so two runs on identical inputs agree. -/
theorem classify_text_deterministic (env1 env2 : Env) (text : Option String)
    (categories : List String) (h : env1.model = env2.model) :
    classify_text env1 text categories = classify_text env2 text categories := by
  cases text with
  | none => rfl
  | some s => simp [classify_text, h]

/-- C9 witness: two worlds sharing a model but differing elsewhere
classify a concrete input identically. -/
theorem classify_text_deterministic_witness :
    sslEnv.model = reqErrEnv.model ∧
    classify_text sslEnv (some "hi") ["A", "B"] =
      classify_text reqErrEnv (some "hi") ["A", "B"] :=
  ⟨rfl, classify_text_deterministic sslEnv reqErrEnv (some "hi") ["A", "B"] rfl⟩

/-- C10: `classify_text` treats the empty string exactly like absent text
(the check is Python falsiness): it returns "Uncategorized" with no model
invocation; and the empty string is reachable, since a page whose only
paragraph text is whitespace extracts to `some ""` rather than absent. -/
theorem classify_text_empty_string (env : Env) (categories : List String)
    (url : String) (h : env.http url = .ok 200 ["  "]) :
    classify_text env (some "") categories =
      ("Uncategorized", (⟨[], [], []⟩ : Trace)) ∧
    classify_text env (some "") categories =
      classify_text env none categories ∧
    (extract_text env url).1 = some "" := by
  refine ⟨rfl, rfl, ?_⟩
  unfold extract_text
  rw [h]
  rfl

/-- C10 witness: in a concrete world whose pages hold only whitespace
paragraph text, extraction returns `some ""` and classification of that
result is "Uncategorized". -/
theorem classify_text_empty_string_witness :
    whitespaceEnv.http "https://ws.example" = .ok 200 ["  "] ∧
    (extract_text whitespaceEnv "https://ws.example").1 = some "" ∧
    classify_text whitespaceEnv (some "") ["Tech"] =
      ("Uncategorized", (⟨[], [], []⟩ : Trace)) := by
  have h := classify_text_empty_string whitespaceEnv ["Tech"]
    "https://ws.example" rfl
  exact ⟨rfl, h.2.2, h.1⟩

/-- C3 counterexample: on the non-absent input `some ""` the claim fails:
the model is not invoked at all (in particular not with the first 1000
characters of the text), and the returned label is "Uncategorized", not
the label the model would rank highest. -/
theorem classify_text_truncates_counterexample :
    (classify_text constLabelsEnv (some "") ["A"]).2.modelCalls = [] ∧
    constLabelsEnv.model ("".take 1000) ["A"] = ["A"] ∧
    (classify_text constLabelsEnv (some "") ["A"]).1 ≠ "A" := by
  refine ⟨rfl, rfl, by decide⟩

/-- C3 (amended): for every non-absent AND non-empty input text,
`classify_text` invokes the model exactly once, on the first 1000
characters of the text together with the full category set as candidate
labels, and returns element 0 of the model's ranked labels. -/
theorem classify_text_truncates (env : Env) (s : String)
    (categories : List String) (hs : s.isEmpty = false) :
    (classify_text env (some s) categories).2.modelCalls =
      [(s.take 1000, categories)] ∧
    ∀ l rest, env.model (s.take 1000) categories = l :: rest →
      (classify_text env (some s) categories).1 = l := by
  constructor
  · simp [classify_text, hs]
  · intro l rest hm
    simp [classify_text, hs, hm]

/-- Advancing a substring position by `m + n` characters advances it by
`n` and then by `m`. -/
theorem substring_nextn_add (ss : Substring) (m n : Nat) (p : String.Pos) :
    ss.nextn (m + n) p = ss.nextn m (ss.nextn n p) := by
  induction n generalizing p with
  | zero => rfl
  | succ n ih =>
      show ss.nextn (m + n) (ss.next p) = _
      rw [ih]
      rfl

theorem substring_nextn_fix (ss : Substring) (n : Nat) (p : String.Pos)
    (h : ss.next p = p) : ss.nextn n p = p := by
  induction n with
  | zero => rfl
  | succ n ih =>
      show ss.nextn n (ss.next p) = p
      rw [h]
      exact ih

/-- Advancing past the end of "hello" saturates, so taking the first 1000
characters of the five-character string "hello" yields "hello" itself. -/
theorem string_take_1000_hello : "hello".take 1000 = "hello" := by
  have e2 : (⟨"hello", 0, ⟨5⟩⟩ : Substring).nextn 5 0 = ⟨5⟩ := by decide
  have e3 : (⟨"hello", 0, ⟨5⟩⟩ : Substring).next ⟨5⟩ = ⟨5⟩ := by decide
  have key : (⟨"hello", 0, ⟨5⟩⟩ : Substring).nextn 1000 0 = ⟨5⟩ := by
    have h1000 : (1000 : Nat) = 995 + 5 := by norm_num
    rw [h1000]
    rw [substring_nextn_add]
    rw [e2]
    rw [substring_nextn_fix _ _ _ e3]
  have t1 : "hello".take 1000 = ("hello".toSubstring.take 1000).toString := rfl
  have t2 : "hello".toSubstring = (⟨"hello", 0, ⟨5⟩⟩ : Substring) := rfl
  have t3 : (⟨"hello", 0, ⟨5⟩⟩ : Substring).take 1000 =
      (⟨"hello", 0,
        (0 : String.Pos) + (⟨"hello", 0, ⟨5⟩⟩ : Substring).nextn 1000 0⟩ :
        Substring) := rfl
  rw [t1, t2, t3, key]
  decide

/-- C3 witness: on the five-character text "hello" (shorter than 1000
characters) the model receives the whole text with both candidate labels,
and the top-ranked label is returned. -/
theorem classify_text_truncates_witness :
    "hello".isEmpty = false ∧
    constLabelsEnv.model ("hello".take 1000) ["A", "B"] = "A" :: ["B"] ∧
    (classify_text constLabelsEnv (some "hello") ["A", "B"]).2.modelCalls =
      [("hello", ["A", "B"])] ∧
    (classify_text constLabelsEnv (some "hello") ["A", "B"]).1 = "A" := by
  have h := classify_text_truncates constLabelsEnv "hello" ["A", "B"]
    (by decide)
  refine ⟨by decide, rfl, ?_, h.2 "A" ["B"] rfl⟩
  rw [h.1, string_take_1000_hello]

/-- Any single row's category is either the sentinel "Uncategorized" or a
member of the category set, provided the model ranks only candidate
labels and ranks at least one of them. -/
theorem processRow_mem (env : Env) (categories : List String)
    (u : Option String) (hsound : ModelSound env categories)
    (hranks : ModelRanks env categories) :
    (processRow env categories u).1 = "Uncategorized" ∨
      (processRow env categories u).1 ∈ categories := by
  have base : ∀ t, (classify_text env t categories).1 = "Uncategorized" ∨
      (classify_text env t categories).1 ∈ categories := by
    intro t
    match t with
    | none => exact Or.inl rfl
    | some s =>
      by_cases hs : s.isEmpty = true
      · exact Or.inl (by simp [classify_text, hs])
      · right
        cases hm : env.model (s.take 1000) categories with
        | nil => exact absurd hm (hranks _)
        | cons l rest =>
          have h1 : (classify_text env (some s) categories).1 = l := by
            simp [classify_text, hs, hm]
          rw [h1]
          exact hsound _ _ (by rw [hm]; exact List.mem_cons_self l rest)
  match u with
  | none => exact Or.inl rfl
  | some uu =>
      have hp : (processRow env categories (some uu)).1 =
          (classify_text env (extract_text env uu).1 categories).1 := rfl
      rw [hp]
      exact base _

/-- C1 counterexample: extraction can succeed (return non-absent text)
while the assigned category falls outside the supplied category set, even
though the model ranks only candidate labels: a page whose sole paragraph
text is whitespace extracts to `some ""`, and the row is then assigned
"Uncategorized", which is not in ["Tech"]. -/
theorem classifyArticles_invariant_counterexample :
    (extract_text whitespaceEnv "https://ws.example").1 = some "" ∧
    whitespaceEnv.model "" ["Tech"] = ["Tech"] ∧
    (processRow whitespaceEnv ["Tech"] (some "https://ws.example")).1 =
      "Uncategorized" ∧
    "Uncategorized" ∉ (["Tech"] : List String) := by
  refine ⟨by decide, rfl, by decide, by decide⟩

/-- C1 (amended): every input row produces exactly one output category;
every output category is either a supplied label or "Uncategorized"; and
whenever extraction succeeds WITH NON-EMPTY TEXT the assigned category is
a member of the supplied category set — all under the assumption that the
model ranks only candidate labels and ranks at least one. -/
theorem classifyArticles_invariant (env : Env) (categories : List String)
    (urls : List (Option String)) (hsound : ModelSound env categories)
    (hranks : ModelRanks env categories) :
    (classifyArticles env categories urls).length = urls.length ∧
    (∀ c ∈ classifyArticles env categories urls,
      c = "Uncategorized" ∨ c ∈ categories) ∧
    (∀ u s, (extract_text env u).1 = some s → s.isEmpty = false →
      (processRow env categories (some u)).1 ∈ categories) := by
  refine ⟨by simp [classifyArticles], ?_, ?_⟩
  · intro c hc
    rcases List.mem_map.1 hc with ⟨u, hu, rfl⟩
    exact processRow_mem env categories u hsound hranks
  · intro u s he hs
    have hp : (processRow env categories (some u)).1 =
        (classify_text env (extract_text env u).1 categories).1 := rfl
    rw [hp, he]
    cases hm : env.model (s.take 1000) categories with
    | nil => exact absurd hm (hranks _)
    | cons l rest =>
      have h1 : (classify_text env (some s) categories).1 = l := by
        simp [classify_text, hs, hm]
      rw [h1]
      exact hsound _ _ (by rw [hm]; exact List.mem_cons_self l rest)

/-- C1 witness: in a concrete world whose model ranks the candidate
labels as given, both model assumptions hold and a two-row input yields
exactly two output categories. -/
theorem classifyArticles_invariant_witness :
    ModelSound constLabelsEnv ["Tech"] ∧ ModelRanks constLabelsEnv ["Tech"] ∧
    (classifyArticles constLabelsEnv ["Tech"] [some "u", none]).length = 2 := by
  have hsound : ModelSound constLabelsEnv ["Tech"] := fun _ x hx => hx
  have hranks : ModelRanks constLabelsEnv ["Tech"] := by
    intro t
    simp [constLabelsEnv]
  exact ⟨hsound, hranks,
    (classifyArticles_invariant constLabelsEnv ["Tech"] [some "u", none]
      hsound hranks).1⟩

/-- C8: header normalization strips surrounding whitespace and uppercases
each column name, so an uploaded file whose URL column is named " url "
(lowercase, padded) passes the required-column check; and the check
succeeds exactly when some column normalizes to "URL", so a file with no
such column is rejected as missing the required column. -/
theorem url_column_normalization (cols : List String) :
    hasURLColumn [" url "] = true ∧
    (hasURLColumn cols = true ↔
      ∃ c ∈ cols, pyUpper (pyStrip c) = "URL") := by
  constructor
  · decide
  · simp only [hasURLColumn, normalizeColumns,
      List.contains_iff_exists_mem_beq, List.mem_map, beq_iff_eq]
    constructor
    · rintro ⟨b, ⟨c, hc, hfc⟩, hb⟩
      exact ⟨c, hc, hfc.trans hb.symm⟩
    · rintro ⟨c, hc, hc2⟩
      exact ⟨"URL", ⟨c, hc, hc2⟩, rfl⟩

end PRThemeClassifier
